import Mathlib

/-!
Verification development for the `webcg` crate (src/src/lib.rs).

The crate's core is the GPU-context acquisition protocol: `WgpuApp::new`
creates a canvas, tries a WebGPU backend attempt, and on any failure tears
the canvas down, creates a fresh one and tries a WebGL backend attempt.
Each attempt (`with_webgpu_backend`, `with_webgl_backend`) creates a
surface, requests an adapter and requests a device, short-circuiting on
the first failure.

External calls (the DOM operations and the wgpu surface/adapter/device
requests) are resolved by an explicit environment, so a run of the
embedded functions is deterministic given that environment.  A trace
state records the canvases currently attached to `parent_element`, the
backend attempts started, the adapter and device requests issued, and
the console output, so that the theorems below can speak about resource
allocation, teardown and logging.
-/

namespace Webcg

/-- The two backend families named by the crate's two
`wgpu::InstanceDescriptor`s: `Backends::BROWSER_WEBGPU`
(src/src/lib.rs:49) and `Backends::GL` (src/src/lib.rs:108). -/
inductive Backends
  | browserWebgpu
  | gl
  deriving DecidableEq, Repr

/-- The limit keys of `wgpu::Limits` (wgpu v22): the fields of the record
returned by `adapter.limits()` and passed as `required_limits`
(src/src/lib.rs:83 and :142). -/
inductive LimitKey
  | max_texture_dimension_1d
  | max_texture_dimension_2d
  | max_texture_dimension_3d
  | max_texture_array_layers
  | max_bind_groups
  | max_bindings_per_bind_group
  | max_dynamic_uniform_buffers_per_pipeline_layout
  | max_dynamic_storage_buffers_per_pipeline_layout
  | max_sampled_textures_per_shader_stage
  | max_samplers_per_shader_stage
  | max_storage_buffers_per_shader_stage
  | max_storage_textures_per_shader_stage
  | max_uniform_buffers_per_shader_stage
  | max_uniform_buffer_binding_size
  | max_storage_buffer_binding_size
  | max_vertex_buffers
  | max_buffer_size
  | max_vertex_attributes
  | max_vertex_buffer_array_stride
  | min_uniform_buffer_offset_alignment
  | min_storage_buffer_offset_alignment
  | max_inter_stage_shader_components
  | max_color_attachments
  | max_color_attachment_bytes_per_sample
  | max_compute_workgroup_storage_size
  | max_compute_invocations_per_workgroup
  | max_compute_workgroup_size_x
  | max_compute_workgroup_size_y
  | max_compute_workgroup_size_z
  | max_compute_workgroups_per_dimension
  | min_subgroup_size
  | max_subgroup_size
  | max_push_constant_size
  | max_non_sampler_bindings
  deriving DecidableEq, Repr

/-- Function-table view of `wgpu::Limits`: one numeric value per limit
key (the `u32`/`u64` fields are embedded as `Nat`). -/
abbrev Limits := LimitKey → Nat

/-- Embeds `wgpu::Limits::downlevel_defaults()` (wgpu v22). -/
def Limits.downlevel_defaults : Limits := fun k =>
  match k with
  | .max_texture_dimension_1d => 2048
  | .max_texture_dimension_2d => 2048
  | .max_texture_dimension_3d => 256
  | .max_texture_array_layers => 256
  | .max_bind_groups => 4
  | .max_bindings_per_bind_group => 1000
  | .max_dynamic_uniform_buffers_per_pipeline_layout => 8
  | .max_dynamic_storage_buffers_per_pipeline_layout => 4
  | .max_sampled_textures_per_shader_stage => 16
  | .max_samplers_per_shader_stage => 16
  | .max_storage_buffers_per_shader_stage => 4
  | .max_storage_textures_per_shader_stage => 4
  | .max_uniform_buffers_per_shader_stage => 12
  | .max_uniform_buffer_binding_size => 16384
  | .max_storage_buffer_binding_size => 134217728
  | .max_vertex_buffers => 8
  | .max_buffer_size => 268435456
  | .max_vertex_attributes => 16
  | .max_vertex_buffer_array_stride => 2048
  | .min_uniform_buffer_offset_alignment => 256
  | .min_storage_buffer_offset_alignment => 256
  | .max_inter_stage_shader_components => 60
  | .max_color_attachments => 8
  | .max_color_attachment_bytes_per_sample => 32
  | .max_compute_workgroup_storage_size => 16352
  | .max_compute_invocations_per_workgroup => 256
  | .max_compute_workgroup_size_x => 256
  | .max_compute_workgroup_size_y => 256
  | .max_compute_workgroup_size_z => 64
  | .max_compute_workgroups_per_dimension => 65535
  | .min_subgroup_size => 0
  | .max_subgroup_size => 0
  | .max_push_constant_size => 0
  | .max_non_sampler_bindings => 1000000

/-- Embeds `wgpu::Limits::downlevel_webgl2_defaults()` (wgpu v22): the
downlevel defaults with the WebGL2-specific overrides applied. -/
def Limits.downlevel_webgl2_defaults : Limits := fun k =>
  match k with
  | .max_uniform_buffers_per_shader_stage => 11
  | .max_storage_buffers_per_shader_stage => 0
  | .max_storage_textures_per_shader_stage => 0
  | .max_dynamic_storage_buffers_per_pipeline_layout => 0
  | .max_storage_buffer_binding_size => 0
  | .max_vertex_buffer_array_stride => 255
  | .max_compute_workgroup_storage_size => 0
  | .max_compute_invocations_per_workgroup => 0
  | .max_compute_workgroup_size_x => 0
  | .max_compute_workgroup_size_y => 0
  | .max_compute_workgroup_size_z => 0
  | .max_compute_workgroups_per_dimension => 0
  | .max_inter_stage_shader_components => 31
  | k => Limits.downlevel_defaults k

/-- Embeds `wgpu::Limits::using_resolution(self, other)` (wgpu v22):
replace the three texture-dimension limits by `other`'s values and keep
every other field of `self`. -/
def Limits.using_resolution (self other : Limits) : Limits := fun k =>
  match k with
  | .max_texture_dimension_1d => other LimitKey.max_texture_dimension_1d
  | .max_texture_dimension_2d => other LimitKey.max_texture_dimension_2d
  | .max_texture_dimension_3d => other LimitKey.max_texture_dimension_3d
  | k => self k

/-- A JavaScript value crossing the wasm boundary (`JsValue`): either a
JS string or some other JS object, identified by a numeric handle. -/
inductive JsValue
  | str (s : String)
  | obj (id : Nat)
  deriving DecidableEq, Repr

/-- Whether a `JsValue` is a JS string. -/
def JsValue.isString : JsValue → Bool
  | JsValue.str _ => true
  | JsValue.obj _ => false

/-- Embeds `wgpu::PowerPreference` (wgpu v22). -/
inductive PowerPreference
  | None
  | LowPower
  | HighPerformance
  deriving DecidableEq, Repr

/-- Embeds wgpu's `Default` impl for `PowerPreference`, which is
`PowerPreference::None`: no explicit performance bias. -/
def PowerPreference.default : PowerPreference := PowerPreference.None

/-- Embeds `wgpu::MemoryHints` (wgpu v22); the `Manual` variant's range
payload is never used by this crate and is omitted. -/
inductive MemoryHints
  | Performance
  | MemoryUsage
  | Manual
  deriving DecidableEq, Repr

/-- Embeds `wgpu::Features` as a bitset; the crate only ever uses
`Features::empty()` (src/src/lib.rs:82,141). -/
abbrev Features := Nat

/-- Embeds `wgpu::Features::empty()`. -/
def Features.empty : Features := 0

/-- Embeds `wgpu::Instance`: it records the backend family it was
created over (`InstanceDescriptor.backends`, src/src/lib.rs:49,108). -/
structure Instance where
  backends : Backends
  deriving DecidableEq, Repr

/-- Embeds `wgpu::Surface`: the backend family of the instance that
created it, the canvas element it targets (the `SurfaceTarget::Canvas`
argument), and the platform handle identity. -/
structure Surface where
  backend : Backends
  canvas : Nat
  id : Nat
  deriving DecidableEq, Repr

/-- Embeds `wgpu::Adapter`: the backend family of the instance whose
`request_adapter` produced it, the handle identity, and the limits it
reports via `adapter.limits()`. -/
structure Adapter where
  backend : Backends
  id : Nat
  limits : Limits

/-- Embeds `wgpu::Device`. -/
structure Device where
  backend : Backends
  id : Nat
  deriving DecidableEq, Repr

/-- Embeds `wgpu::Queue`. -/
structure Queue where
  backend : Backends
  id : Nat
  deriving DecidableEq, Repr

/-- Embeds `struct WgpuApp` (src/src/lib.rs:13): an instance, a boxed
surface, an adapter, a device and a queue.  The Rust field `instance` is
called `inst` here because `instance` is a Lean keyword. -/
structure WgpuApp where
  inst : Instance
  surface : Surface
  adapter : Adapter
  device : Device
  queue : Queue

/-- Embeds `wgpu::RequestAdapterOptions` as constructed at
src/src/lib.rs:66 and :125. -/
structure RequestAdapterOptions where
  power_preference : PowerPreference
  compatible_surface : Option Surface
  force_fallback_adapter : Bool
  deriving DecidableEq, Repr

/-- Embeds `wgpu::DeviceDescriptor` as constructed at src/src/lib.rs:80
and :139. -/
structure DeviceDescriptor where
  label : Option String
  required_features : Features
  required_limits : Limits
  memory_hints : MemoryHints

/-- Outcomes the platform supplies to one backend attempt: the result of
`instance.create_surface` (`some` an error message on failure), of
`instance.request_adapter` (`none` when no compatible adapter exists,
otherwise the adapter's handle identity and reported limits — an
`Option`, not an exception), and of `adapter.request_device` (`some` an
error message on failure), together with the identities of the handles
produced on success. -/
structure BackendEnv where
  surfaceResult : Option String
  adapterResult : Option (Nat × Limits)
  deviceResult : Option String
  surfaceId : Nat
  deviceId : Nat
  queueId : Nat

/-- Whether this attempt fails at one of its three negotiation steps
(surface creation, adapter request, device request), in the order the
code checks them. -/
def BackendEnv.fails (e : BackendEnv) : Bool :=
  e.surfaceResult.isSome || e.adapterResult.isNone || e.deviceResult.isSome

/-- The `e.to_string()` message a failing attempt reports: the surface
error's message, else the fixed no-adapter message, else the device
error's message. -/
def BackendEnv.failReason (e : BackendEnv) (noAdapterMsg : String) : String :=
  match e.surfaceResult with
  | some m => m
  | none =>
    match e.adapterResult with
    | none => noAdapterMsg
    | some _ => e.deviceResult.getD ""

/-- Outcomes of the DOM calls `WgpuApp::new` makes, in program order:
the two `create_element("canvas")` calls, the two
`dyn_into::<HtmlCanvasElement>()` conversions, the two `append_child`
calls and the one `remove_child` call.  `some v` means the call throws
the JavaScript value `v`; a `dyn_into` set to `false` fails, and its
error value is the element itself. -/
structure DomEnv where
  create1 : Option JsValue
  dynInto1 : Bool
  append1 : Option JsValue
  remove1 : Option JsValue
  create2 : Option JsValue
  dynInto2 : Bool
  append2 : Option JsValue

/-- The full environment of one run of `WgpuApp::new`. -/
structure Env where
  dom : DomEnv
  webgpu : BackendEnv
  webgl : BackendEnv

/-- Observable trace of a run: the fresh-identity counter for DOM
elements, the canvases currently attached to `parent_element` in
insertion order, the backend attempts started (with the canvas each was
given), the adapter requests and device requests issued (the latter
paired with the adapter they were issued to), and the console output. -/
structure TraceState where
  nextId : Nat
  children : List Nat
  attempts : List (Backends × Nat)
  adapterRequests : List RequestAdapterOptions
  deviceRequests : List (Adapter × DeviceDescriptor)
  log : List String

/-- The trace state at page start: nothing allocated, nothing attached,
nothing logged. -/
def initState : TraceState :=
  { nextId := 0, children := [], attempts := [], adapterRequests := [],
    deviceRequests := [], log := [] }

/-- Embeds `WgpuApp::with_webgpu_backend` (src/src/lib.rs:47): an
instance over `Backends::BROWSER_WEBGPU`, a surface for the given
canvas, an adapter request with default power preference, mandatory
surface compatibility and no fallback adapter, then a device request
with empty features, `downlevel_webgl2_defaults().using_resolution
(adapter.limits())` and the `MemoryUsage` memory hint; every error is
logged via `console::error_1` and returned, success logs
`"WebGPU backend initialized"`. -/
def with_webgpu_backend (e : BackendEnv) (canvas : Nat) (st : TraceState) :
    Except String WgpuApp × TraceState :=
  let st := { st with attempts := st.attempts ++ [(Backends.browserWebgpu, canvas)] }
  let inst : Instance := { backends := Backends.browserWebgpu }
  match e.surfaceResult with
  | some m => (Except.error m, { st with log := st.log ++ [m] })
  | none =>
    let surface : Surface :=
      { backend := inst.backends, canvas := canvas, id := e.surfaceId }
    let opts : RequestAdapterOptions :=
      { power_preference := PowerPreference.default,
        compatible_surface := some surface,
        force_fallback_adapter := false }
    let st := { st with adapterRequests := st.adapterRequests ++ [opts] }
    match e.adapterResult with
    | none =>
      (Except.error "No suitable adapter found for WebGPU backend",
       { st with log := st.log ++ ["No suitable adapter found for WebGPU backend"] })
    | some a =>
      let adapter : Adapter := { backend := inst.backends, id := a.1, limits := a.2 }
      let desc : DeviceDescriptor :=
        { label := none,
          required_features := Features.empty,
          required_limits :=
            Limits.using_resolution Limits.downlevel_webgl2_defaults adapter.limits,
          memory_hints := MemoryHints.MemoryUsage }
      let st := { st with deviceRequests := st.deviceRequests ++ [(adapter, desc)] }
      match e.deviceResult with
      | some m => (Except.error m, { st with log := st.log ++ [m] })
      | none =>
        (Except.ok
          { inst := inst,
            surface := surface,
            adapter := adapter,
            device := { backend := inst.backends, id := e.deviceId },
            queue := { backend := inst.backends, id := e.queueId } },
         { st with log := st.log ++ ["WebGPU backend initialized"] })

/-- Embeds `WgpuApp::with_webgl_backend` (src/src/lib.rs:106): identical
to the WebGPU attempt except that the instance is over `Backends::GL`
and the log/error strings name the WebGL backend. -/
def with_webgl_backend (e : BackendEnv) (canvas : Nat) (st : TraceState) :
    Except String WgpuApp × TraceState :=
  let st := { st with attempts := st.attempts ++ [(Backends.gl, canvas)] }
  let inst : Instance := { backends := Backends.gl }
  match e.surfaceResult with
  | some m => (Except.error m, { st with log := st.log ++ [m] })
  | none =>
    let surface : Surface :=
      { backend := inst.backends, canvas := canvas, id := e.surfaceId }
    let opts : RequestAdapterOptions :=
      { power_preference := PowerPreference.default,
        compatible_surface := some surface,
        force_fallback_adapter := false }
    let st := { st with adapterRequests := st.adapterRequests ++ [opts] }
    match e.adapterResult with
    | none =>
      (Except.error "No suitable adapter found for WebGL backend",
       { st with log := st.log ++ ["No suitable adapter found for WebGL backend"] })
    | some a =>
      let adapter : Adapter := { backend := inst.backends, id := a.1, limits := a.2 }
      let desc : DeviceDescriptor :=
        { label := none,
          required_features := Features.empty,
          required_limits :=
            Limits.using_resolution Limits.downlevel_webgl2_defaults adapter.limits,
          memory_hints := MemoryHints.MemoryUsage }
      let st := { st with deviceRequests := st.deviceRequests ++ [(adapter, desc)] }
      match e.deviceResult with
      | some m => (Except.error m, { st with log := st.log ++ [m] })
      | none =>
        (Except.ok
          { inst := inst,
            surface := surface,
            adapter := adapter,
            device := { backend := inst.backends, id := e.deviceId },
            queue := { backend := inst.backends, id := e.queueId } },
         { st with log := st.log ++ ["WebGL backend initialized"] })

/-- Embeds `WgpuApp::new` (src/src/lib.rs:22): create a canvas and
append it to `parent_element`, try the WebGPU backend attempt; on any
failure of that attempt, remove the canvas from `parent_element`, create
and append a fresh canvas, and try the WebGL backend attempt.  A WebGL
attempt failure is returned as `JsValue::from_str` of its message; a
failed DOM call propagates the thrown `JsValue` unchanged via `?`. -/
def WgpuApp.new (env : Env) (st : TraceState) :
    Except JsValue WgpuApp × TraceState :=
  match env.dom.create1 with
  | some v => (Except.error v, st)
  | none =>
    let elem1 := st.nextId
    let st := { st with nextId := st.nextId + 1 }
    if env.dom.dynInto1 = false then
      (Except.error (JsValue.obj elem1), st)
    else
      match env.dom.append1 with
      | some v => (Except.error v, st)
      | none =>
        let st := { st with children := st.children ++ [elem1] }
        let gpuRun := with_webgpu_backend env.webgpu elem1 st
        let st := gpuRun.2
        match gpuRun.1 with
        | Except.ok app => (Except.ok app, st)
        | Except.error _ =>
          match env.dom.remove1 with
          | some v => (Except.error v, st)
          | none =>
            let st := { st with children := st.children.erase elem1 }
            match env.dom.create2 with
            | some v => (Except.error v, st)
            | none =>
              let elem2 := st.nextId
              let st := { st with nextId := st.nextId + 1 }
              if env.dom.dynInto2 = false then
                (Except.error (JsValue.obj elem2), st)
              else
                match env.dom.append2 with
                | some v => (Except.error v, st)
                | none =>
                  let st := { st with children := st.children ++ [elem2] }
                  let glRun := with_webgl_backend env.webgl elem2 st
                  (Except.mapError JsValue.str glRun.1, glRun.2)

/-- Embeds the exported `fn add(a: u32, b: u32) -> u32 { a + b }`
(src/src/lib.rs:210) under the release-profile (wrapping) semantics of
`u32` addition; a `u32` is embedded as a `Nat` below `2 ^ 32`. -/
def add (a b : Nat) : Nat := (a + b) % 4294967296

/-! Helper lemmas characterizing the two backend attempt functions. -/

lemma with_webgpu_backend_ok (e : BackendEnv) (c : Nat) (st : TraceState)
    (app : WgpuApp)
    (h : (with_webgpu_backend e c st).1 = Except.ok app) :
    e.fails = false ∧ ∃ a, e.adapterResult = some a ∧
      app = { inst := { backends := Backends.browserWebgpu },
              surface := { backend := Backends.browserWebgpu, canvas := c,
                           id := e.surfaceId },
              adapter := { backend := Backends.browserWebgpu, id := a.1,
                           limits := a.2 },
              device := { backend := Backends.browserWebgpu, id := e.deviceId },
              queue := { backend := Backends.browserWebgpu, id := e.queueId } } := by
  rcases hs : e.surfaceResult with _ | m1 <;>
  rcases ha : e.adapterResult with _ | a <;>
  rcases hd : e.deviceResult with _ | m2 <;>
    simp_all [with_webgpu_backend, BackendEnv.fails]

lemma with_webgl_backend_ok (e : BackendEnv) (c : Nat) (st : TraceState)
    (app : WgpuApp)
    (h : (with_webgl_backend e c st).1 = Except.ok app) :
    e.fails = false ∧ ∃ a, e.adapterResult = some a ∧
      app = { inst := { backends := Backends.gl },
              surface := { backend := Backends.gl, canvas := c,
                           id := e.surfaceId },
              adapter := { backend := Backends.gl, id := a.1, limits := a.2 },
              device := { backend := Backends.gl, id := e.deviceId },
              queue := { backend := Backends.gl, id := e.queueId } } := by
  rcases hs : e.surfaceResult with _ | m1 <;>
  rcases ha : e.adapterResult with _ | a <;>
  rcases hd : e.deviceResult with _ | m2 <;>
    simp_all [with_webgl_backend, BackendEnv.fails]

lemma with_webgpu_backend_err_elim (e : BackendEnv) (c : Nat) (st : TraceState)
    (m : String)
    (h : (with_webgpu_backend e c st).1 = Except.error m) :
    e.fails = true ∧ m = e.failReason "No suitable adapter found for WebGPU backend" := by
  rcases hs : e.surfaceResult with _ | m1 <;>
  rcases ha : e.adapterResult with _ | a <;>
  rcases hd : e.deviceResult with _ | m2 <;>
    simp_all [with_webgpu_backend, BackendEnv.fails, BackendEnv.failReason]

lemma with_webgl_backend_err_elim (e : BackendEnv) (c : Nat) (st : TraceState)
    (m : String)
    (h : (with_webgl_backend e c st).1 = Except.error m) :
    e.fails = true ∧ m = e.failReason "No suitable adapter found for WebGL backend" := by
  rcases hs : e.surfaceResult with _ | m1 <;>
  rcases ha : e.adapterResult with _ | a <;>
  rcases hd : e.deviceResult with _ | m2 <;>
    simp_all [with_webgl_backend, BackendEnv.fails, BackendEnv.failReason]

lemma with_webgpu_backend_state (e : BackendEnv) (c : Nat) (st : TraceState) :
    (with_webgpu_backend e c st).2.children = st.children ∧
    (with_webgpu_backend e c st).2.nextId = st.nextId ∧
    (with_webgpu_backend e c st).2.attempts =
      st.attempts ++ [(Backends.browserWebgpu, c)] ∧
    ∀ s ∈ st.log, s ∈ (with_webgpu_backend e c st).2.log := by
  rcases hs : e.surfaceResult with _ | m1 <;>
  rcases ha : e.adapterResult with _ | a <;>
  rcases hd : e.deviceResult with _ | m2 <;>
    simp_all [with_webgpu_backend]

lemma with_webgl_backend_state (e : BackendEnv) (c : Nat) (st : TraceState) :
    (with_webgl_backend e c st).2.children = st.children ∧
    (with_webgl_backend e c st).2.nextId = st.nextId ∧
    (with_webgl_backend e c st).2.attempts = st.attempts ++ [(Backends.gl, c)] ∧
    ∀ s ∈ st.log, s ∈ (with_webgl_backend e c st).2.log := by
  rcases hs : e.surfaceResult with _ | m1 <;>
  rcases ha : e.adapterResult with _ | a <;>
  rcases hd : e.deviceResult with _ | m2 <;>
    simp_all [with_webgl_backend]

lemma with_webgpu_backend_err_run (e : BackendEnv) (c : Nat) (st : TraceState)
    (h : e.fails = true) :
    (with_webgpu_backend e c st).1 =
      Except.error (e.failReason "No suitable adapter found for WebGPU backend") ∧
    (with_webgpu_backend e c st).2.children = st.children ∧
    (with_webgpu_backend e c st).2.nextId = st.nextId ∧
    (with_webgpu_backend e c st).2.attempts =
      st.attempts ++ [(Backends.browserWebgpu, c)] ∧
    e.failReason "No suitable adapter found for WebGPU backend"
      ∈ (with_webgpu_backend e c st).2.log ∧
    ∀ s ∈ st.log, s ∈ (with_webgpu_backend e c st).2.log := by
  rcases hs : e.surfaceResult with _ | m1 <;>
  rcases ha : e.adapterResult with _ | a <;>
  rcases hd : e.deviceResult with _ | m2 <;>
    simp_all [with_webgpu_backend, BackendEnv.fails, BackendEnv.failReason]

lemma with_webgl_backend_err_run (e : BackendEnv) (c : Nat) (st : TraceState)
    (h : e.fails = true) :
    (with_webgl_backend e c st).1 =
      Except.error (e.failReason "No suitable adapter found for WebGL backend") ∧
    (with_webgl_backend e c st).2.children = st.children ∧
    (with_webgl_backend e c st).2.nextId = st.nextId ∧
    (with_webgl_backend e c st).2.attempts = st.attempts ++ [(Backends.gl, c)] ∧
    ∀ s ∈ st.log, s ∈ (with_webgl_backend e c st).2.log := by
  rcases hs : e.surfaceResult with _ | m1 <;>
  rcases ha : e.adapterResult with _ | a <;>
  rcases hd : e.deviceResult with _ | m2 <;>
    simp_all [with_webgl_backend, BackendEnv.fails, BackendEnv.failReason]

lemma with_webgpu_backend_ok_run (e : BackendEnv) (c : Nat) (st : TraceState)
    (h : e.fails = false) :
    (∃ app, (with_webgpu_backend e c st).1 = Except.ok app) ∧
    (with_webgpu_backend e c st).2.children = st.children ∧
    (with_webgpu_backend e c st).2.nextId = st.nextId ∧
    (with_webgpu_backend e c st).2.attempts =
      st.attempts ++ [(Backends.browserWebgpu, c)] := by
  rcases hs : e.surfaceResult with _ | m1 <;>
  rcases ha : e.adapterResult with _ | a <;>
  rcases hd : e.deviceResult with _ | m2 <;>
    simp_all [with_webgpu_backend, BackendEnv.fails]

lemma with_webgl_backend_ok_run (e : BackendEnv) (c : Nat) (st : TraceState)
    (h : e.fails = false) :
    (∃ app, (with_webgl_backend e c st).1 = Except.ok app) ∧
    (with_webgl_backend e c st).2.children = st.children ∧
    (with_webgl_backend e c st).2.nextId = st.nextId ∧
    (with_webgl_backend e c st).2.attempts = st.attempts ++ [(Backends.gl, c)] := by
  rcases hs : e.surfaceResult with _ | m1 <;>
  rcases ha : e.adapterResult with _ | a <;>
  rcases hd : e.deviceResult with _ | m2 <;>
    simp_all [with_webgl_backend, BackendEnv.fails]

lemma with_webgpu_backend_children (e : BackendEnv) (c : Nat) (st : TraceState) :
    (with_webgpu_backend e c st).2.children = st.children :=
  (with_webgpu_backend_state e c st).1

lemma with_webgpu_backend_nextId (e : BackendEnv) (c : Nat) (st : TraceState) :
    (with_webgpu_backend e c st).2.nextId = st.nextId :=
  (with_webgpu_backend_state e c st).2.1

lemma with_webgpu_backend_attempts (e : BackendEnv) (c : Nat) (st : TraceState) :
    (with_webgpu_backend e c st).2.attempts =
      st.attempts ++ [(Backends.browserWebgpu, c)] :=
  (with_webgpu_backend_state e c st).2.2.1

lemma with_webgpu_backend_log_mono (e : BackendEnv) (c : Nat) (st : TraceState)
    (s : String) (hs : s ∈ st.log) : s ∈ (with_webgpu_backend e c st).2.log :=
  (with_webgpu_backend_state e c st).2.2.2 s hs

lemma with_webgl_backend_children (e : BackendEnv) (c : Nat) (st : TraceState) :
    (with_webgl_backend e c st).2.children = st.children :=
  (with_webgl_backend_state e c st).1

lemma with_webgl_backend_nextId (e : BackendEnv) (c : Nat) (st : TraceState) :
    (with_webgl_backend e c st).2.nextId = st.nextId :=
  (with_webgl_backend_state e c st).2.1

lemma with_webgl_backend_attempts (e : BackendEnv) (c : Nat) (st : TraceState) :
    (with_webgl_backend e c st).2.attempts = st.attempts ++ [(Backends.gl, c)] :=
  (with_webgl_backend_state e c st).2.2.1

lemma with_webgl_backend_log_mono (e : BackendEnv) (c : Nat) (st : TraceState)
    (s : String) (hs : s ∈ st.log) : s ∈ (with_webgl_backend e c st).2.log :=
  (with_webgl_backend_state e c st).2.2.2 s hs

lemma with_webgpu_backend_err_reason (e : BackendEnv) (c : Nat) (st : TraceState)
    (h : e.fails = true) :
    (with_webgpu_backend e c st).1 =
      Except.error (e.failReason "No suitable adapter found for WebGPU backend") :=
  (with_webgpu_backend_err_run e c st h).1

lemma with_webgl_backend_err_reason (e : BackendEnv) (c : Nat) (st : TraceState)
    (h : e.fails = true) :
    (with_webgl_backend e c st).1 =
      Except.error (e.failReason "No suitable adapter found for WebGL backend") :=
  (with_webgl_backend_err_run e c st h).1

lemma with_webgpu_backend_err_log (e : BackendEnv) (c : Nat) (st : TraceState)
    (h : e.fails = true) :
    e.failReason "No suitable adapter found for WebGPU backend"
      ∈ (with_webgpu_backend e c st).2.log :=
  (with_webgpu_backend_err_run e c st h).2.2.2.2.1

lemma with_webgpu_backend_ok_ex (e : BackendEnv) (c : Nat) (st : TraceState)
    (h : e.fails = false) :
    ∃ app, (with_webgpu_backend e c st).1 = Except.ok app :=
  (with_webgpu_backend_ok_run e c st h).1

lemma with_webgl_backend_ok_ex (e : BackendEnv) (c : Nat) (st : TraceState)
    (h : e.fails = false) :
    ∃ app, (with_webgl_backend e c st).1 = Except.ok app :=
  (with_webgl_backend_ok_run e c st h).1

lemma mapError_ok_elim {ε ε' α : Type} (f : ε → ε') (x : Except ε α) (a : α)
    (h : Except.mapError f x = Except.ok a) : x = Except.ok a := by
  cases x <;> simp_all [Except.mapError]

lemma new_ok_elim (env : Env) (app : WgpuApp) (st' : TraceState)
    (h : WgpuApp.new env initState = (Except.ok app, st')) :
    (env.webgpu.fails = false ∧ ∃ a, env.webgpu.adapterResult = some a ∧
      app = { inst := { backends := Backends.browserWebgpu },
              surface := { backend := Backends.browserWebgpu, canvas := 0,
                           id := env.webgpu.surfaceId },
              adapter := { backend := Backends.browserWebgpu, id := a.1,
                           limits := a.2 },
              device := { backend := Backends.browserWebgpu, id := env.webgpu.deviceId },
              queue := { backend := Backends.browserWebgpu, id := env.webgpu.queueId } })
  ∨ (env.webgpu.fails = true ∧ ∃ a, env.webgl.adapterResult = some a ∧
      app = { inst := { backends := Backends.gl },
              surface := { backend := Backends.gl, canvas := 1,
                           id := env.webgl.surfaceId },
              adapter := { backend := Backends.gl, id := a.1, limits := a.2 },
              device := { backend := Backends.gl, id := env.webgl.deviceId },
              queue := { backend := Backends.gl, id := env.webgl.queueId } }) := by
  simp only [WgpuApp.new, initState] at h
  split at h
  · simp at h
  · split at h
    · simp at h
    · split at h
      · simp at h
      · split at h
        case _ app2 heq =>
          left
          obtain ⟨h1, h2⟩ := Prod.mk.injEq .. ▸ h
          obtain ⟨hf, a, ha, happ⟩ := with_webgpu_backend_ok _ _ _ _ heq
          exact ⟨hf, a, ha, by simp_all⟩
        case _ m heq =>
          right
          obtain ⟨hf, -⟩ := with_webgpu_backend_err_elim _ _ _ _ heq
          refine ⟨hf, ?_⟩
          split at h
          · simp at h
          · split at h
            · simp at h
            · split at h
              · simp at h
              · split at h
                · simp at h
                · obtain ⟨h1, h2⟩ := Prod.mk.injEq .. ▸ h
                  have hgl := mapError_ok_elim _ _ _ h1
                  obtain ⟨hf2, a, ha, happ⟩ := with_webgl_backend_ok _ _ _ _ hgl
                  have hn := (with_webgpu_backend_state env.webgpu 0
                    { nextId := 1, children := [0], attempts := [],
                      adapterRequests := [], deviceRequests := [], log := [] }).2.1
                  exact ⟨a, ha, by simp_all⟩

/-! Concrete environments used as witnesses and counterexamples. -/

/-- A DOM in which every call `WgpuApp::new` makes succeeds. -/
def domOk : DomEnv :=
  { create1 := none, dynInto1 := true, append1 := none, remove1 := none,
    create2 := none, dynInto2 := true, append2 := none }

/-- A backend whose three negotiation steps all succeed; the adapter
reports exactly the downlevel-WebGL2 baseline limits. -/
def backendOk : BackendEnv :=
  { surfaceResult := none,
    adapterResult := some (7, Limits.downlevel_webgl2_defaults),
    deviceResult := none, surfaceId := 3, deviceId := 4, queueId := 5 }

/-- A backend on which no compatible adapter exists: `request_adapter`
returns `none`. -/
def backendNoAdapter : BackendEnv :=
  { surfaceResult := none, adapterResult := none, deviceResult := none,
    surfaceId := 0, deviceId := 0, queueId := 0 }

/-- A backend whose surface creation fails. -/
def backendSurfaceFail : BackendEnv :=
  { surfaceResult := some "WebGPU is not supported on this target",
    adapterResult := none, deviceResult := none,
    surfaceId := 0, deviceId := 0, queueId := 0 }

/-- An environment where everything succeeds on the primary backend. -/
def envPrimaryOk : Env :=
  { dom := domOk, webgpu := backendOk, webgl := backendOk }

/-- An environment where the primary backend fails (surface creation)
and the secondary backend succeeds. -/
def envFallbackOk : Env :=
  { dom := domOk, webgpu := backendSurfaceFail, webgl := backendOk }

/-- An environment where the primary backend fails (surface creation)
and the secondary backend finds no adapter. -/
def envBothFail : Env :=
  { dom := domOk, webgpu := backendSurfaceFail, webgl := backendNoAdapter }

/-! The claim theorems. -/

/-- C10: for all `u32` inputs `a` and `b`, the exported `add` returns
the sum computed in `u32` arithmetic, i.e. `(a + b) mod 2 ^ 32` under
wrapping semantics — a valid `u32`, equal to the exact sum whenever the
exact sum fits. -/
theorem add_wraps_u32 (a b : Nat) (ha : a < 2 ^ 32) (hb : b < 2 ^ 32) :
    add a b = (a + b) % 2 ^ 32 ∧ add a b < 2 ^ 32 ∧
    (a + b < 2 ^ 32 → add a b = a + b) := by
  refine ⟨by norm_num [add], ?_, fun h => ?_⟩
  · have : (2 : Nat) ^ 32 = 4294967296 := by norm_num
    exact this ▸ Nat.mod_lt _ (by norm_num [add])
  · have : a + b < 4294967296 := by omega
    simp [add, Nat.mod_eq_of_lt this]

theorem add_wraps_u32_witness :
    (4294967295 : Nat) < 2 ^ 32 ∧ (1 : Nat) < 2 ^ 32 ∧
    add 4294967295 1 = (4294967295 + 1) % 2 ^ 32 ∧ add 4294967295 1 = 0 :=
  ⟨by norm_num, by norm_num,
   (add_wraps_u32 4294967295 1 (by norm_num) (by norm_num)).1, by decide⟩

/-- C7: every adapter request either backend attempt issues uses the
platform-default power preference, demands compatibility with the
surface created by that same attempt, and sets `force_fallback_adapter`
to `false`; and when no compatible adapter exists the request yields
`none` — an option, not an exception — and the attempt fails carrying
the fixed no-adapter reason string. -/
theorem adapter_request_policy (e : BackendEnv) (c : Nat) (st : TraceState) :
    (∀ r ∈ (with_webgpu_backend e c st).2.adapterRequests,
        r ∈ st.adapterRequests ∨
        (r.power_preference = PowerPreference.default ∧
         r.compatible_surface =
           some { backend := Backends.browserWebgpu, canvas := c,
                  id := e.surfaceId } ∧
         r.force_fallback_adapter = false)) ∧
    (e.surfaceResult = none → e.adapterResult = none →
      (with_webgpu_backend e c st).1 =
        Except.error "No suitable adapter found for WebGPU backend") ∧
    (∀ r ∈ (with_webgl_backend e c st).2.adapterRequests,
        r ∈ st.adapterRequests ∨
        (r.power_preference = PowerPreference.default ∧
         r.compatible_surface =
           some { backend := Backends.gl, canvas := c, id := e.surfaceId } ∧
         r.force_fallback_adapter = false)) ∧
    (e.surfaceResult = none → e.adapterResult = none →
      (with_webgl_backend e c st).1 =
        Except.error "No suitable adapter found for WebGL backend") := by
  rcases hs : e.surfaceResult with _ | m1 <;>
  rcases ha : e.adapterResult with _ | a <;>
  rcases hd : e.deviceResult with _ | m2 <;>
    simp_all [with_webgpu_backend, with_webgl_backend] <;>
    constructor <;> rintro r (hr | rfl) <;> simp [*]

theorem adapter_request_policy_witness :
    (with_webgpu_backend backendNoAdapter 0 initState).1 =
      Except.error "No suitable adapter found for WebGPU backend" ∧
    (with_webgl_backend backendNoAdapter 0 initState).1 =
      Except.error "No suitable adapter found for WebGL backend" :=
  ⟨(adapter_request_policy backendNoAdapter 0 initState).2.1 rfl rfl,
   (adapter_request_policy backendNoAdapter 0 initState).2.2.2 rfl rfl⟩

/-- C3: a `WgpuApp` returned by `WgpuApp::new` records the backend that
produced it in the returned value itself (the backend family its
instance was created over): it is `Backends::BROWSER_WEBGPU` exactly
when the primary attempt succeeded, and `Backends::GL` exactly when the
primary attempt failed and the secondary attempt produced the value. -/
theorem context_tagged_with_backend (env : Env) (app : WgpuApp)
    (st' : TraceState)
    (h : WgpuApp.new env initState = (Except.ok app, st')) :
    (env.webgpu.fails = false ∧ app.inst.backends = Backends.browserWebgpu) ∨
    (env.webgpu.fails = true ∧ app.inst.backends = Backends.gl) := by
  rcases new_ok_elim env app st' h with ⟨hf, a, ha, happ⟩ | ⟨hf, a, ha, happ⟩
  · exact Or.inl ⟨hf, by simp [happ]⟩
  · exact Or.inr ⟨hf, by simp [happ]⟩

/-- The context produced when the primary backend fully succeeds under
`envPrimaryOk`. -/
def appPrimary : WgpuApp :=
  { inst := { backends := Backends.browserWebgpu },
    surface := { backend := Backends.browserWebgpu, canvas := 0, id := 3 },
    adapter := { backend := Backends.browserWebgpu, id := 7,
                 limits := Limits.downlevel_webgl2_defaults },
    device := { backend := Backends.browserWebgpu, id := 4 },
    queue := { backend := Backends.browserWebgpu, id := 5 } }

theorem context_tagged_with_backend_witness :
    (envPrimaryOk.webgpu.fails = false ∧
       appPrimary.inst.backends = Backends.browserWebgpu) ∨
    (envPrimaryOk.webgpu.fails = true ∧
       appPrimary.inst.backends = Backends.gl) :=
  context_tagged_with_backend envPrimaryOk appPrimary
    (WgpuApp.new envPrimaryOk initState).2 rfl

/-- C4: construction is all-or-nothing — a value returned by
`WgpuApp::new` is a fully populated record whose four components
(surface, adapter, device, queue) all carry the provenance of one and
the same attempt: each shares the backend family of the app's instance,
and their identities are exactly the ones that attempt's environment
produced, never a mix of the primary attempt's adapter with the
secondary attempt's device. -/
theorem context_all_or_nothing (env : Env) (app : WgpuApp) (st' : TraceState)
    (h : WgpuApp.new env initState = (Except.ok app, st')) :
    app.surface.backend = app.inst.backends ∧
    app.adapter.backend = app.inst.backends ∧
    app.device.backend = app.inst.backends ∧
    app.queue.backend = app.inst.backends ∧
    ((app.inst.backends = Backends.browserWebgpu ∧
      app.surface.canvas = 0 ∧ app.surface.id = env.webgpu.surfaceId ∧
      (∃ a, env.webgpu.adapterResult = some a ∧ app.adapter.id = a.1) ∧
      app.device.id = env.webgpu.deviceId ∧
      app.queue.id = env.webgpu.queueId) ∨
     (app.inst.backends = Backends.gl ∧
      app.surface.canvas = 1 ∧ app.surface.id = env.webgl.surfaceId ∧
      (∃ a, env.webgl.adapterResult = some a ∧ app.adapter.id = a.1) ∧
      app.device.id = env.webgl.deviceId ∧
      app.queue.id = env.webgl.queueId)) := by
  rcases new_ok_elim env app st' h with ⟨hf, a, ha, happ⟩ | ⟨hf, a, ha, happ⟩
  · subst happ
    exact ⟨rfl, rfl, rfl, rfl,
      Or.inl ⟨rfl, rfl, rfl, ⟨a, ha, rfl⟩, rfl, rfl⟩⟩
  · subst happ
    exact ⟨rfl, rfl, rfl, rfl,
      Or.inr ⟨rfl, rfl, rfl, ⟨a, ha, rfl⟩, rfl, rfl⟩⟩

/-- The context produced when the primary backend fails and the
secondary one succeeds under `envFallbackOk`. -/
def appFallback : WgpuApp :=
  { inst := { backends := Backends.gl },
    surface := { backend := Backends.gl, canvas := 1, id := 3 },
    adapter := { backend := Backends.gl, id := 7,
                 limits := Limits.downlevel_webgl2_defaults },
    device := { backend := Backends.gl, id := 4 },
    queue := { backend := Backends.gl, id := 5 } }

theorem context_all_or_nothing_witness :
    appFallback.surface.backend = appFallback.inst.backends ∧
    appFallback.adapter.backend = appFallback.inst.backends ∧
    appFallback.device.backend = appFallback.inst.backends ∧
    appFallback.queue.backend = appFallback.inst.backends :=
  ⟨(context_all_or_nothing envFallbackOk appFallback
      (WgpuApp.new envFallbackOk initState).2 rfl).1,
   (context_all_or_nothing envFallbackOk appFallback
      (WgpuApp.new envFallbackOk initState).2 rfl).2.1,
   (context_all_or_nothing envFallbackOk appFallback
      (WgpuApp.new envFallbackOk initState).2 rfl).2.2.1,
   (context_all_or_nothing envFallbackOk appFallback
      (WgpuApp.new envFallbackOk initState).2 rfl).2.2.2.1⟩

/-- An environment where the primary attempt fails but the subsequent
`remove_child` teardown call itself throws, so the run aborts before
any secondary attempt. -/
def envRemoveFails : Env :=
  { dom := { create1 := none, dynInto1 := true, append1 := none,
             remove1 := some (JsValue.obj 99), create2 := none,
             dynInto2 := true, append2 := none },
    webgpu := backendSurfaceFail,
    webgl := backendOk }

/-- C1 counterexample: a run of `WgpuApp::new` in which the primary
attempt fails at its first step and yet no secondary attempt is ever
started, because the `remove_child` teardown call throws; the claim's
"exactly one secondary attempt is made" is false for this run. -/
theorem fallback_skipped_when_remove_child_throws :
    envRemoveFails.webgpu.fails = true ∧
    (WgpuApp.new envRemoveFails initState).2.attempts =
      [(Backends.browserWebgpu, 0)] ∧
    (WgpuApp.new envRemoveFails initState).1 =
      Except.error (JsValue.obj 99) :=
  ⟨rfl, rfl, rfl⟩

/-- C1 (amended): in every run of `WgpuApp::new` in which the primary
(WebGPU) attempt fails at any of its three steps and the intervening
DOM calls succeed, exactly one secondary (WebGL) attempt is made, the
primary attempt's canvas is detached from the parent, and the secondary
attempt uses a freshly created canvas distinct by identity from the
primary's — afterwards the secondary canvas is the only child. -/
theorem fallback_single_secondary_attempt (env : Env)
    (h1 : env.dom.create1 = none) (h2 : env.dom.dynInto1 = true)
    (h3 : env.dom.append1 = none) (h4 : env.dom.remove1 = none)
    (h5 : env.dom.create2 = none) (h6 : env.dom.dynInto2 = true)
    (h7 : env.dom.append2 = none) (hp : env.webgpu.fails = true) :
    (WgpuApp.new env initState).2.attempts =
      [(Backends.browserWebgpu, 0), (Backends.gl, 1)] ∧
    (0 : Nat) ≠ (1 : Nat) ∧
    (WgpuApp.new env initState).2.children = [1] := by
  have hg := with_webgpu_backend_err_reason env.webgpu 0
    { nextId := 1, children := [0], attempts := [], adapterRequests := [],
      deviceRequests := [], log := [] } hp
  simp [WgpuApp.new, initState, h1, h2, h3, h4, h5, h6, h7, hg,
    with_webgpu_backend_children, with_webgpu_backend_nextId,
    with_webgpu_backend_attempts, with_webgl_backend_children,
    with_webgl_backend_attempts]

theorem fallback_single_secondary_attempt_witness :
    (WgpuApp.new envFallbackOk initState).2.attempts =
      [(Backends.browserWebgpu, 0), (Backends.gl, 1)] ∧
    (0 : Nat) ≠ (1 : Nat) ∧
    (WgpuApp.new envFallbackOk initState).2.children = [1] :=
  fallback_single_secondary_attempt envFallbackOk
    rfl rfl rfl rfl rfl rfl rfl rfl

/-- C6: if the initial DOM calls succeed and the primary (WebGPU)
attempt succeeds, `WgpuApp::new` returns that context at once: the
secondary (WebGL) attempt is never started, no second canvas is ever
created (the fresh-identity counter stops at 1), and the primary canvas
is the only child of the parent element afterwards. -/
theorem primary_success_skips_fallback (env : Env)
    (h1 : env.dom.create1 = none) (h2 : env.dom.dynInto1 = true)
    (h3 : env.dom.append1 = none) (hp : env.webgpu.fails = false) :
    (∃ app, (WgpuApp.new env initState).1 = Except.ok app) ∧
    (WgpuApp.new env initState).2.attempts = [(Backends.browserWebgpu, 0)] ∧
    (WgpuApp.new env initState).2.children = [0] ∧
    (WgpuApp.new env initState).2.nextId = 1 := by
  obtain ⟨app, happ⟩ := with_webgpu_backend_ok_ex env.webgpu 0
    { nextId := 1, children := [0], attempts := [], adapterRequests := [],
      deviceRequests := [], log := [] } hp
  refine ⟨⟨app, ?_⟩, ?_, ?_, ?_⟩ <;>
    simp [WgpuApp.new, initState, h1, h2, h3, happ,
      with_webgpu_backend_children, with_webgpu_backend_nextId,
      with_webgpu_backend_attempts]

theorem primary_success_skips_fallback_witness :
    (WgpuApp.new envPrimaryOk initState).2.attempts =
      [(Backends.browserWebgpu, 0)] ∧
    (WgpuApp.new envPrimaryOk initState).2.children = [0] ∧
    (WgpuApp.new envPrimaryOk initState).2.nextId = 1 :=
  ⟨(primary_success_skips_fallback envPrimaryOk rfl rfl rfl rfl).2.1,
   (primary_success_skips_fallback envPrimaryOk rfl rfl rfl rfl).2.2.1,
   (primary_success_skips_fallback envPrimaryOk rfl rfl rfl rfl).2.2.2⟩

/-- C5: in every run in which both attempts fail at a negotiation step
(the DOM calls succeeding, as they must for the secondary attempt to
run at all), the error `WgpuApp::new` returns is the secondary (WebGL)
attempt's failure reason as a string `JsValue`, not the primary's; the
primary (WebGPU) attempt's failure reason is recorded in the console
log. -/
theorem secondary_error_returned (env : Env)
    (h1 : env.dom.create1 = none) (h2 : env.dom.dynInto1 = true)
    (h3 : env.dom.append1 = none) (h4 : env.dom.remove1 = none)
    (h5 : env.dom.create2 = none) (h6 : env.dom.dynInto2 = true)
    (h7 : env.dom.append2 = none)
    (hp : env.webgpu.fails = true) (hs : env.webgl.fails = true) :
    (WgpuApp.new env initState).1 =
      Except.error (JsValue.str
        (env.webgl.failReason "No suitable adapter found for WebGL backend")) ∧
    env.webgpu.failReason "No suitable adapter found for WebGPU backend"
      ∈ (WgpuApp.new env initState).2.log := by
  have hg := with_webgpu_backend_err_reason env.webgpu 0
    { nextId := 1, children := [0], attempts := [], adapterRequests := [],
      deviceRequests := [], log := [] } hp
  have hlog := with_webgpu_backend_err_log env.webgpu 0
    { nextId := 1, children := [0], attempts := [], adapterRequests := [],
      deviceRequests := [], log := [] } hp
  constructor
  · simp [WgpuApp.new, initState, h1, h2, h3, h4, h5, h6, h7, hg,
      with_webgpu_backend_children, with_webgpu_backend_nextId,
      with_webgl_backend_err_reason, hs, Except.mapError]
  · simp [WgpuApp.new, initState, h1, h2, h3, h4, h5, h6, h7, hg,
      with_webgpu_backend_children, with_webgpu_backend_nextId]
    exact with_webgl_backend_log_mono _ _ _ _ hlog

theorem secondary_error_returned_witness :
    (WgpuApp.new envBothFail initState).1 =
      Except.error (JsValue.str
        (envBothFail.webgl.failReason
          "No suitable adapter found for WebGL backend")) ∧
    envBothFail.webgpu.failReason
        "No suitable adapter found for WebGPU backend"
      ∈ (WgpuApp.new envBothFail initState).2.log :=
  secondary_error_returned envBothFail rfl rfl rfl rfl rfl rfl rfl rfl rfl

/-- C9: in every run in which the primary attempt fails, the DOM calls
succeed and the secondary (WebGL) attempt also fails, `WgpuApp::new`
returns an error while the secondary attempt's canvas is still appended
to the parent element — unlike the primary's canvas, the failed
secondary canvas is never detached from the document tree. -/
theorem failed_secondary_canvas_left_attached (env : Env)
    (h1 : env.dom.create1 = none) (h2 : env.dom.dynInto1 = true)
    (h3 : env.dom.append1 = none) (h4 : env.dom.remove1 = none)
    (h5 : env.dom.create2 = none) (h6 : env.dom.dynInto2 = true)
    (h7 : env.dom.append2 = none)
    (hp : env.webgpu.fails = true) (hs : env.webgl.fails = true) :
    (∃ v, (WgpuApp.new env initState).1 = Except.error v) ∧
    (WgpuApp.new env initState).2.children = [1] ∧
    (1 : Nat) ∈ (WgpuApp.new env initState).2.children ∧
    (0 : Nat) ∉ (WgpuApp.new env initState).2.children := by
  have hg := with_webgpu_backend_err_reason env.webgpu 0
    { nextId := 1, children := [0], attempts := [], adapterRequests := [],
      deviceRequests := [], log := [] } hp
  refine ⟨⟨JsValue.str
    (env.webgl.failReason "No suitable adapter found for WebGL backend"),
    ?_⟩, ?_, ?_, ?_⟩ <;>
    simp [WgpuApp.new, initState, h1, h2, h3, h4, h5, h6, h7, hg,
      with_webgpu_backend_children, with_webgpu_backend_nextId,
      with_webgl_backend_children, with_webgl_backend_err_reason, hs,
      Except.mapError]

theorem failed_secondary_canvas_left_attached_witness :
    (WgpuApp.new envBothFail initState).2.children = [1] ∧
    (1 : Nat) ∈ (WgpuApp.new envBothFail initState).2.children ∧
    (0 : Nat) ∉ (WgpuApp.new envBothFail initState).2.children :=
  ⟨(failed_secondary_canvas_left_attached envBothFail
      rfl rfl rfl rfl rfl rfl rfl rfl rfl).2.1,
   (failed_secondary_canvas_left_attached envBothFail
      rfl rfl rfl rfl rfl rfl rfl rfl rfl).2.2.1,
   (failed_secondary_canvas_left_attached envBothFail
      rfl rfl rfl rfl rfl rfl rfl rfl rfl).2.2.2⟩

lemma mapError_error_elim {ε ε' α : Type} (f : ε → ε') (x : Except ε α)
    (v : ε') (h : Except.mapError f x = Except.error v) :
    ∃ m, x = Except.error m ∧ v = f m := by
  cases x <;> simp_all [Except.mapError]

/-- An environment whose very first DOM call (`create_element`) throws
a non-string JavaScript value, the way a real DOM call throws a
`DOMException` object. -/
def envDomFail : Env :=
  { dom := { create1 := some (JsValue.obj 7), dynInto1 := true,
             append1 := none, remove1 := none, create2 := none,
             dynInto2 := true, append2 := none },
    webgpu := backendOk, webgl := backendOk }

/-- C8 counterexample: `WgpuApp::new` can return an error that is not a
string — when a DOM call throws, the thrown `JsValue` is propagated
unchanged by `?`, so the claim that every returned error (including DOM
failures) is string-valued is false on this run. -/
theorem dom_error_not_string :
    (WgpuApp.new envDomFail initState).1 = Except.error (JsValue.obj 7) ∧
    (JsValue.obj 7).isString = false :=
  ⟨rfl, rfl⟩

/-- C8 (amended): `WgpuApp::new` always returns either a ready context
or a terminal error `JsValue`; every error arising from backend
negotiation is string-valued (the WebGL attempt's reason via
`JsValue::from_str`), while a failing DOM call propagates the thrown
value unchanged, which need not be a string.  Concretely: whenever
every DOM call succeeds, any error the constructor returns is a
string. -/
theorem new_error_is_string_when_dom_ok (env : Env)
    (h1 : env.dom.create1 = none) (h2 : env.dom.dynInto1 = true)
    (h3 : env.dom.append1 = none) (h4 : env.dom.remove1 = none)
    (h5 : env.dom.create2 = none) (h6 : env.dom.dynInto2 = true)
    (h7 : env.dom.append2 = none)
    (v : JsValue) (h : (WgpuApp.new env initState).1 = Except.error v) :
    v.isString = true := by
  rcases hfp : env.webgpu.fails with _ | _
  · obtain ⟨app, happ⟩ := with_webgpu_backend_ok_ex env.webgpu 0
      { nextId := 1, children := [0], attempts := [], adapterRequests := [],
        deviceRequests := [], log := [] } hfp
    simp [WgpuApp.new, initState, h1, h2, h3, happ] at h
  · have hg := with_webgpu_backend_err_reason env.webgpu 0
      { nextId := 1, children := [0], attempts := [], adapterRequests := [],
        deviceRequests := [], log := [] } hfp
    simp only [WgpuApp.new, initState] at h
    simp [h1, h2, h3, h4, h5, h6, h7, hg] at h
    obtain ⟨m, hm, hv⟩ := mapError_error_elim _ _ _ h
    subst hv
    rfl

theorem new_error_is_string_when_dom_ok_witness :
    (JsValue.str "No suitable adapter found for WebGL backend").isString
      = true :=
  new_error_is_string_when_dom_ok envBothFail rfl rfl rfl rfl rfl rfl rfl
    (JsValue.str "No suitable adapter found for WebGL backend") rfl

/-! Limit-clamping analysis for C2. -/

lemma using_resolution_le (base al : Limits)
    (h : ∀ k, base k ≤ al k) (k : LimitKey) :
    Limits.using_resolution base al k ≤ al k := by
  cases k <;> first
    | exact le_refl _
    | exact h _

lemma with_webgpu_backend_deviceRequests (e : BackendEnv) (c : Nat)
    (st : TraceState) :
    (with_webgpu_backend e c st).2.deviceRequests = st.deviceRequests ∨
    ∃ a, e.adapterResult = some a ∧
      (with_webgpu_backend e c st).2.deviceRequests =
        st.deviceRequests ++
          [({ backend := Backends.browserWebgpu, id := a.1, limits := a.2 },
            { label := none, required_features := Features.empty,
              required_limits := Limits.using_resolution
                Limits.downlevel_webgl2_defaults a.2,
              memory_hints := MemoryHints.MemoryUsage })] := by
  rcases hs : e.surfaceResult with _ | m1 <;>
  rcases ha : e.adapterResult with _ | a <;>
  rcases hd : e.deviceResult with _ | m2 <;>
    simp_all [with_webgpu_backend]

lemma with_webgl_backend_deviceRequests (e : BackendEnv) (c : Nat)
    (st : TraceState) :
    (with_webgl_backend e c st).2.deviceRequests = st.deviceRequests ∨
    ∃ a, e.adapterResult = some a ∧
      (with_webgl_backend e c st).2.deviceRequests =
        st.deviceRequests ++
          [({ backend := Backends.gl, id := a.1, limits := a.2 },
            { label := none, required_features := Features.empty,
              required_limits := Limits.using_resolution
                Limits.downlevel_webgl2_defaults a.2,
              memory_hints := MemoryHints.MemoryUsage })] := by
  rcases hs : e.surfaceResult with _ | m1 <;>
  rcases ha : e.adapterResult with _ | a <;>
  rcases hd : e.deviceResult with _ | m2 <;>
    simp_all [with_webgl_backend]

/-- Limits of a weak adapter that reports 0 for every limit key. -/
def zeroLimits : Limits := fun _ => 0

/-- A backend whose adapter reports `zeroLimits` and which would accept
the device request. -/
def backendWeakAdapter : BackendEnv :=
  { surfaceResult := none, adapterResult := some (5, zeroLimits),
    deviceResult := none, surfaceId := 0, deviceId := 0, queueId := 0 }

/-- C2 counterexample: the requested device limits are NOT clamped to
the adapter's reported limits for non-resolution keys.  Against an
adapter reporting 0 for every limit, the WebGPU attempt still requests
the downlevel-WebGL2 baseline of 11 uniform buffers per shader stage,
so `requested_limits[k] <= adapter_limits[k]` fails at that key. -/
theorem limits_request_exceeds_weak_adapter :
    ¬ (∀ p ∈ (with_webgpu_backend backendWeakAdapter 0 initState).2.deviceRequests,
        ∀ k, p.2.required_limits k ≤ p.1.limits k) := by
  intro hall
  have h11 := hall
    ({ backend := Backends.browserWebgpu, id := 5, limits := zeroLimits },
     { label := none, required_features := Features.empty,
       required_limits := Limits.using_resolution
         Limits.downlevel_webgl2_defaults zeroLimits,
       memory_hints := MemoryHints.MemoryUsage })
    (by simp [with_webgpu_backend, backendWeakAdapter, initState])
    LimitKey.max_uniform_buffers_per_shader_stage
  simp [Limits.using_resolution, Limits.downlevel_webgl2_defaults,
    zeroLimits] at h11

/-- C2 (amended): for every run of either backend attempt, each newly
issued device request carries `required_limits` equal to
`downlevel_webgl2_defaults().using_resolution(adapter.limits())`: the
three texture-dimension limits are exactly the adapter's reported
values (hence never exceed them), while every other key is the fixed
downlevel-WebGL2 baseline, so `requested_limits[k] <= adapter_limits[k]`
holds for every key exactly when the adapter meets that baseline; the
request is not clamped down for weaker adapters. -/
theorem limits_request_baseline_with_adapter_resolution (e : BackendEnv)
    (c : Nat) (st : TraceState) :
    (∀ p ∈ (with_webgpu_backend e c st).2.deviceRequests,
       p ∈ st.deviceRequests ∨
       (p.2.required_limits =
          Limits.using_resolution Limits.downlevel_webgl2_defaults
            p.1.limits ∧
        p.2.required_limits LimitKey.max_texture_dimension_1d =
          p.1.limits LimitKey.max_texture_dimension_1d ∧
        p.2.required_limits LimitKey.max_texture_dimension_2d =
          p.1.limits LimitKey.max_texture_dimension_2d ∧
        p.2.required_limits LimitKey.max_texture_dimension_3d =
          p.1.limits LimitKey.max_texture_dimension_3d ∧
        ((∀ k, Limits.downlevel_webgl2_defaults k ≤ p.1.limits k) →
          ∀ k, p.2.required_limits k ≤ p.1.limits k))) ∧
    (∀ p ∈ (with_webgl_backend e c st).2.deviceRequests,
       p ∈ st.deviceRequests ∨
       (p.2.required_limits =
          Limits.using_resolution Limits.downlevel_webgl2_defaults
            p.1.limits ∧
        p.2.required_limits LimitKey.max_texture_dimension_1d =
          p.1.limits LimitKey.max_texture_dimension_1d ∧
        p.2.required_limits LimitKey.max_texture_dimension_2d =
          p.1.limits LimitKey.max_texture_dimension_2d ∧
        p.2.required_limits LimitKey.max_texture_dimension_3d =
          p.1.limits LimitKey.max_texture_dimension_3d ∧
        ((∀ k, Limits.downlevel_webgl2_defaults k ≤ p.1.limits k) →
          ∀ k, p.2.required_limits k ≤ p.1.limits k))) := by
  constructor
  · intro p hp
    rcases with_webgpu_backend_deviceRequests e c st with hg | ⟨a, ha, hg⟩
    · exact Or.inl (hg ▸ hp)
    · rw [hg] at hp
      rcases List.mem_append.mp hp with hp | hp
      · exact Or.inl hp
      · obtain rfl := List.mem_singleton.mp hp
        exact Or.inr ⟨rfl, rfl, rfl, rfl,
          fun hb k => using_resolution_le _ _ hb k⟩
  · intro p hp
    rcases with_webgl_backend_deviceRequests e c st with hg | ⟨a, ha, hg⟩
    · exact Or.inl (hg ▸ hp)
    · rw [hg] at hp
      rcases List.mem_append.mp hp with hp | hp
      · exact Or.inl hp
      · obtain rfl := List.mem_singleton.mp hp
        exact Or.inr ⟨rfl, rfl, rfl, rfl,
          fun hb k => using_resolution_le _ _ hb k⟩

/-- The single device request the WebGPU attempt issues under
`backendOk`, whose adapter reports exactly the downlevel-WebGL2
baseline. -/
def deviceRequestOk : Adapter × DeviceDescriptor :=
  ({ backend := Backends.browserWebgpu, id := 7,
     limits := Limits.downlevel_webgl2_defaults },
   { label := none, required_features := Features.empty,
     required_limits := Limits.using_resolution
       Limits.downlevel_webgl2_defaults Limits.downlevel_webgl2_defaults,
     memory_hints := MemoryHints.MemoryUsage })

theorem limits_request_baseline_witness :
    deviceRequestOk.2.required_limits LimitKey.max_bind_groups ≤
      deviceRequestOk.1.limits LimitKey.max_bind_groups ∧
    deviceRequestOk.2.required_limits LimitKey.max_texture_dimension_2d =
      deviceRequestOk.1.limits LimitKey.max_texture_dimension_2d := by
  have h := (limits_request_baseline_with_adapter_resolution backendOk 0
      initState).1 deviceRequestOk
    (by simp [with_webgpu_backend, backendOk, initState, deviceRequestOk])
  rcases h with h | h
  · simp [initState] at h
  · exact ⟨h.2.2.2.2 (fun k => le_refl _) LimitKey.max_bind_groups, h.2.2.1⟩

end Webcg
